import Mathlib

/-!
Shallow embedding of the eco-jump run-time simulation engine (`main.py`):
entity model, world generator factors, the physics/collision/effect
resolution pipeline and the game-flow controller.  Python floats are
modelled as rationals, pygame integer rects as integer rects, and the
random/trig inputs of a tick as explicit oracle parameters.
-/

namespace EcoJump

/-- Python `int(x)` on a float: truncation toward zero
(`-⌊-q⌋` is the ceiling of `q`, used on the negative side). -/
def pyInt (q : ℚ) : Int := if q < 0 then -⌊-q⌋ else ⌊q⌋

/-- `clamp(v, lo, hi)` from the source, on rationals. -/
def clampQ (v lo hi : ℚ) : ℚ := max lo (min hi v)

/-- `clamp(v, lo, hi)` from the source, on integers. -/
def clampI (v lo hi : Int) : Int := max lo (min hi v)

/-- `lerp(a, b, t)` from the source (applied to integer pixel inputs). -/
def lerpQ (a b : Int) (t : ℚ) : ℚ := (a : ℚ) + ((b : ℚ) - (a : ℚ)) * t

/-- Python `random.randint(lo, hi)` modelled by an oracle value forced
into the requested range. -/
def randint (lo hi v : Int) : Int := max lo (min hi v)

-- Config constants from the source head.
def WIDTH : Int := 460
def HEIGHT : Int := 720
def GRAVITY : ℚ := 1/2
def PLAYER_MOVE_SPEED : ℚ := 31/5
def PLAYER_JUMP_VEL : ℚ := -14
def PLAYER_W : Int := 50
def PLAYER_H : Int := 50
def SCROLL_TRIGGER_Y : Int := 288
def PASSIVE_ENERGY_DRAIN : ℚ := 6/125
def ENEMY_HIT_ENERGY_LOSS : ℚ := 22
def ENERGY_FROM_SOLAR : ℚ := 14
def ENERGY_FROM_WIND : ℚ := 7
def ENERGY_FROM_HYDRO : ℚ := 9
def ENERGY_FROM_CELL : ℚ := 22
def DUR_LED : Nat := 840
def DUR_SHIELD : Nat := 720
def DUR_JET : Nat := 120
def DUR_INVINCIBLE : Nat := 120
def PLATFORM_W : Int := 104
def PLATFORM_H : Int := 16
def SPAWN_MIN_GAP : ℚ := 90
def SPAWN_MAX_GAP : ℚ := 170
def SPAWN_X_MARGIN : Int := 24
def MAX_PLATFORMS_ON_SCREEN : Nat := 22
def ENEMY_BASE_SPAWN_CHANCE : ℚ := 3/50
def ENEMY_PATROL_SPEED : ℚ := 13/10
def ENEMY_SINE_SPEED : ℚ := 3/100
def ENEMY_CHASER_SPEED : ℚ := 2
def BONUS_CHANCE_BASE : ℚ := 11/50
def QUIZ_BANK_SIZE : Nat := 30

/-- An integer pygame rect: topleft corner plus width and height. -/
structure Rect where
  x : Int
  y : Int
  w : Int
  h : Int
  deriving DecidableEq, Repr

def Rect.top (r : Rect) : Int := r.y
def Rect.bottom (r : Rect) : Int := r.y + r.h
def Rect.left (r : Rect) : Int := r.x
def Rect.right (r : Rect) : Int := r.x + r.w
def Rect.centerx (r : Rect) : Int := r.x + r.w / 2

/-- pygame `Rect.colliderect`: strict overlap on both axes. -/
def colliderect (a b : Rect) : Bool :=
  decide (a.x < b.x + b.w) && decide (b.x < a.x + a.w) &&
  decide (a.y < b.y + b.h) && decide (b.y < a.y + a.h)

/-- Platform kinds (`P_*` constants; the spring is a bonus, not a platform
kind actually produced by the generator). -/
inductive PKind where
  | normal | solar | wind | hydro | moving | breaking | disappearing
  deriving DecidableEq, Repr

/-- Enemy kinds (`E_*`). -/
inductive EKind where
  | bulb | pipe | smoke | chaser
  deriving DecidableEq, Repr

/-- Bonus kinds (`B_*`). -/
inductive BKind where
  | cell | led | shield | jet | spring
  deriving DecidableEq, Repr

/-- Game-flow states (`STATE_*`). -/
inductive GState where
  | menu | play | pause | quiz | gameover
  deriving DecidableEq, Repr

/-- The `Player` sprite: rect, previous-frame rect, velocity, energy,
lives, score mirror, the four frame timers and the weak safe-platform
reference (stored as a platform id). -/
structure Player where
  rect : Rect
  prev_rect : Rect
  velx : ℚ
  vely : ℚ
  energy : ℚ
  lives : Int
  score : Int
  drain_slow : Nat
  shield : Nat
  jet : Nat
  invincible : Nat
  last_safe : Option Nat
  deriving DecidableEq, Repr

/-- `Player.__init__(x, y, lives)`: a 50x50 rect centred at `(x, y)`. -/
def mkPlayer (x y : Int) (lives : Int) : Player :=
  let r : Rect := { x := x - PLAYER_W / 2, y := y - PLAYER_H / 2, w := PLAYER_W, h := PLAYER_H }
  { rect := r, prev_rect := r, velx := 0, vely := 0, energy := 100,
    lives := lives, score := 0, drain_slow := 0, shield := 0, jet := 0,
    invincible := 0, last_safe := none }

/-- `Player.update`: horizontal input and wrap, jet/gravity vertical
integration, passive energy drain with clamp, and timer decrements.
Touch input takes precedence over left/right keys, as in the source. -/
def Player.update (pl : Player) (touchX : Option Int) (kLeft kRight : Bool) : Player :=
  let prev := pl.rect
  let vx : ℚ :=
    match touchX with
    | some t => if t < WIDTH / 2 then -PLAYER_MOVE_SPEED else PLAYER_MOVE_SPEED
    | none =>
      if kLeft then -PLAYER_MOVE_SPEED
      else if kRight then PLAYER_MOVE_SPEED
      else 0
  let r1 : Rect := { pl.rect with x := pl.rect.x + pyInt vx }
  let r1 : Rect :=
    if r1.x + r1.w < 0 then { r1 with x := WIDTH }
    else if r1.x > WIDTH then { r1 with x := -r1.w }
    else r1
  let vyJet : ℚ × Nat :=
    if pl.jet > 0 then (-(19/2 : ℚ), pl.jet - 1) else (pl.vely + GRAVITY, pl.jet)
  let r2 : Rect := { r1 with y := r1.y + pyInt vyJet.1 }
  let drain := PASSIVE_ENERGY_DRAIN * (if pl.drain_slow > 0 then 3/5 else 1)
  { pl with
    prev_rect := prev, rect := r2, velx := vx, vely := vyJet.1, jet := vyJet.2,
    energy := clampQ (pl.energy - drain) 0 100,
    drain_slow := pl.drain_slow - 1,
    shield := pl.shield - 1,
    invincible := pl.invincible - 1 }

/-- `Player.bounce(power, speed_factor)`. -/
def Player.bounce (pl : Player) (power : Option ℚ) (speed_factor : ℚ) : Player :=
  let base := PLAYER_JUMP_VEL * speed_factor
  { pl with vely := match power with | none => base | some p => p }

/-- `Player.take_enemy_hit`: no-op while invincible, consumes a shield,
otherwise clamps off the fixed energy loss and caps upward velocity. -/
def Player.take_enemy_hit (pl : Player) : Player :=
  if pl.invincible > 0 then pl
  else if pl.shield > 0 then { pl with shield := 0 }
  else
    { pl with
      energy := clampQ (pl.energy - ENEMY_HIT_ENERGY_LOSS) 0 100,
      vely := if pl.vely < -8 then (-8 : ℚ) else pl.vely }

/-- The `Platform` sprite; `id` stands in for Python object identity and
backs the weak safe-platform reference and in-group membership. -/
structure Platform where
  id : Nat
  kind : PKind
  rect : Rect
  active : Bool
  fade : ℚ
  phase : ℚ
  start_x : Int
  deriving DecidableEq, Repr

/-- `Platform.__init__(x, y, kind)` followed by `set_start_x(rect.x)`,
with the random initial phase supplied by the caller. -/
def mkPlatform (id : Nat) (x y : Int) (kind : PKind) (phase : ℚ) : Platform :=
  { id := id, kind := kind,
    rect := { x := x, y := y, w := PLATFORM_W, h := PLATFORM_H },
    active := true, fade := 1, phase := phase, start_x := x }

/-- `Platform.update`: only active moving platforms oscillate, driven by
the sine oracle. -/
def Platform.updateP (sinO : ℚ → ℚ) (sf : ℚ) (p : Platform) : Platform :=
  if p.kind = PKind.moving ∧ p.active then
    let phase := p.phase + (2/100) * sf
    { p with phase := phase,
             rect := { p.rect with x := p.start_x + pyInt (sinO phase * 80) } }
  else p

/-- The `Enemy` sprite. -/
structure Enemy where
  kind : EKind
  rect : Rect
  phase : ℚ
  deriving DecidableEq, Repr

/-- `Enemy.__init__` (36x36 rect centred at `(x, y)`). -/
def mkEnemy (x y : Int) (kind : EKind) (phase : ℚ) : Enemy :=
  { kind := kind, rect := { x := x - 18, y := y - 18, w := 36, h := 36 }, phase := phase }

/-- `Enemy.update`: phase advance plus kind-specific motion, with
`math.sin` supplied as an oracle. -/
def Enemy.updateE (sinO : ℚ → ℚ) (playerCx : Int) (esf : ℚ) (e : Enemy) : Enemy :=
  let phase := e.phase + ENEMY_SINE_SPEED * esf
  let e := { e with phase := phase }
  match e.kind with
  | EKind.bulb =>
      { e with rect := { e.rect with
          x := e.rect.x + pyInt (sinO phase * ENEMY_PATROL_SPEED * (14/10) * esf) } }
  | EKind.pipe =>
      { e with rect := { e.rect with
          y := e.rect.y + pyInt (sinO (phase * (9/10)) * 1 * esf) } }
  | EKind.smoke =>
      { e with rect := { e.rect with
          y := e.rect.y + pyInt ((-(1/2) + sinO phase * (1/4)) * esf) } }
  | EKind.chaser =>
      let ecx := e.rect.centerx
      let e :=
        if (playerCx - ecx).natAbs > 4 then
          let dir : ℚ := if playerCx > ecx then 1 else -1
          { e with rect := { e.rect with
              x := e.rect.x + pyInt (dir * ENEMY_CHASER_SPEED * esf) } }
        else e
      { e with rect := { e.rect with y := e.rect.y + pyInt (sinO phase * (6/10) * esf) } }

/-- The `Bonus` sprite. -/
structure Bonus where
  kind : BKind
  rect : Rect
  phase : ℚ
  deriving DecidableEq, Repr

/-- `Bonus.__init__` (28x28 rect centred at `(x, y)`). -/
def mkBonus (x y : Int) (kind : BKind) (phase : ℚ) : Bonus :=
  { kind := kind, rect := { x := x - 14, y := y - 14, w := 28, h := 28 }, phase := phase }

/-- `Bonus.update`: vertical bob via the sine oracle. -/
def Bonus.updateB (sinO : ℚ → ℚ) (b : Bonus) : Bonus :=
  let phase := b.phase + 6/100
  { b with phase := phase,
           rect := { b.rect with y := b.rect.y + pyInt (sinO phase * (1/2)) } }

/-- `World.progress_factor`: the score the game syncs into the world,
divided by 4000 and clamped to `[0, 1]`. -/
def progress_factor (score : Int) : ℚ := clampQ ((score : ℚ) / 4000) 0 1

/-- `World.speed_factor`. -/
def speed_factor (score : Int) : ℚ := 1 + (1/2) * progress_factor score

/-- `World.choose_platform_type` with the uniform draw as input. -/
def choose_platform_type (p r : ℚ) : PKind :=
  if r < 24/100 - (8/100) * p then PKind.solar
  else if r < 44/100 - (8/100) * p then PKind.wind
  else if r < 60/100 - (6/100) * p then PKind.hydro
  else if r < 78/100 - (8/100) * p then PKind.normal
  else if r < 88/100 then PKind.moving
  else if r < 94/100 then PKind.disappearing
  else PKind.breaking

/-- `World.enemy_spawn_chance`. -/
def enemy_spawn_chance (p : ℚ) : ℚ := ENEMY_BASE_SPAWN_CHANCE + p * (18/100)

/-- `World.choose_enemy` with the two draws as inputs. -/
def choose_enemy (p rPres rKind : ℚ) : Option EKind :=
  if rPres < enemy_spawn_chance p then
    some (if rKind < 40/100 then EKind.bulb
          else if rKind < 70/100 then EKind.pipe
          else if rKind < 85/100 then EKind.smoke
          else EKind.chaser)
  else none

/-- `World.choose_bonus` with the two draws as inputs. -/
def choose_bonus (p rPres rKind : ℚ) : Option BKind :=
  if rPres < BONUS_CHANCE_BASE then
    some (if rKind < 40/100 - (15/100) * p then BKind.cell
          else if rKind < 60/100 then BKind.led
          else if rKind < 80/100 then BKind.shield
          else if rKind < 93/100 then BKind.jet
          else BKind.spring)
  else none

/-- The score update used both in `Game.update` and `Game.game_over`:
`score = max(score, int(ascended_px * 0.06))`. -/
def scoreUpd (score ascended : Int) : Int :=
  max score (pyInt ((ascended : ℚ) * (6/100)))

/-- One per-iteration bundle of the random draws consumed by
`Game.spawn_next`; a tick's spawn loop consumes one bundle per spawned
platform (the loop also stops when the finite oracle list runs out). -/
structure SpawnDraw where
  gapR : Int
  kindR : ℚ
  xR : Int
  platPhase : ℚ
  springR : ℚ
  springPhase : ℚ
  enemyPresR : ℚ
  enemyKindR : ℚ
  enemyXR : Int
  enemyPhase : ℚ
  bonusPresR : ℚ
  bonusKindR : ℚ
  bonusXR : Int
  bonusYR : Int
  bonusPhase : ℚ

/-- The per-tick environment: player input, the `math.sin` oracle, and
the random draws a tick consumes. -/
structure Env where
  sinO : ℚ → ℚ
  touch : Option Int
  keyLeft : Bool
  keyRight : Bool
  draws : List SpawnDraw
  nudges : Nat → Bool
  qpick : Nat

/-- The `Game` controller state: FSM phase, sprite groups (as insertion
ordered lists), score bookkeeping, the world generator scalars and the
quiz-overlay fields of `QuizUI`. -/
structure Game where
  state : GState
  player : Player
  platforms : List Platform
  enemies : List Enemy
  bonuses : List Bonus
  score : Int
  high_score : Int
  ascended_px : Int
  worldScore : Int
  spawn_y : Int
  nextId : Nat
  quizIdx : Option Nat
  quizFeedback : Option Bool
  quizTimer : Nat

/-- `Game.game_over`: final score bump and high-score persistence. -/
def game_over (g : Game) : Game :=
  let sc := scoreUpd g.score g.ascended_px
  { g with state := GState.gameover, score := sc, high_score := max g.high_score sc }

/-- `Game.trigger_quiz`: decrement lives, then either go straight to
game over (post-decrement lives negative) or pick a question and enter
the quiz state. -/
def trigger_quiz (g : Game) (qpick : Nat) : Game :=
  let g1 := { g with player := { g.player with lives := g.player.lives - 1 } }
  if g1.player.lives < 0 then game_over g1
  else
    { g1 with state := GState.quiz, quizIdx := some (qpick % QUIZ_BANK_SIZE),
              quizFeedback := none, quizTimer := 0 }

/-- `Player.revive_on_safe`, given the top of the still-alive safe
platform (or `none`): recentre above it (screen centre otherwise), zero
the velocity, restore energy to at least 55 and grant invincibility. -/
def Player.revive_on_safe (pl : Player) (safeTop : Option Int) : Player :=
  let y : Int :=
    match safeTop with
    | some t => t - PLAYER_H / 2 - 2
    | none => HEIGHT / 2
  { pl with
    rect := { pl.rect with x := WIDTH / 2 - pl.rect.w / 2, y := y - pl.rect.h / 2 },
    velx := 0, vely := 0, energy := max 55 pl.energy, invincible := DUR_INVINCIBLE }

/-- `Player.revive_on_safe` resolved against the live platform list (the
weak reference is only honoured if the platform is still alive). -/
def Game.revivePlayer (g : Game) : Player :=
  g.player.revive_on_safe
    ((g.player.last_safe.bind fun i => g.platforms.find? fun p => p.id == i).map
      fun p => p.rect.top)

/-- `Game.resolve_quiz_result`. -/
def resolve_quiz_result (g : Game) (correct : Bool) : Game :=
  if correct then
    let g1 := { g with player := { g.player with lives := g.player.lives + 1 } }
    { g1 with player := g1.revivePlayer, state := GState.play }
  else game_over g

/-- The QUIZ branch of `Game.update`: feedback timer countdown, then the
flow transition once the feedback window has elapsed. -/
def quizTick (g : Game) : Game :=
  let g1 := { g with quizTimer := g.quizTimer - 1 }
  match g1.quizFeedback with
  | some c => if g1.quizTimer = 0 then resolve_quiz_result g1 c else g1
  | none => g1

/-- The landing test of `Game.resolve_platform_collisions` for one
platform: active, straddle (previous bottom at or above the top) and
current-frame overlap. -/
def landTest (prevBottom : Int) (prect : Rect) (p : Platform) : Bool :=
  p.active && decide (prevBottom ≤ p.rect.top) && colliderect prect p.rect

/-- First platform in iteration order passing the landing test. -/
def findLanding (prevBottom : Int) (prect : Rect) : List Platform → Option Platform
  | [] => none
  | p :: ps => if landTest prevBottom prect p then some p else findLanding prevBottom prect ps

/-- The player half of `Game.handle_platform_effect`. -/
def playerPlatEffect (pl : Player) (k : PKind) : Player :=
  match k with
  | PKind.solar => { pl with energy := clampQ (pl.energy + ENERGY_FROM_SOLAR) 0 100 }
  | PKind.wind => { pl with energy := clampQ (pl.energy + ENERGY_FROM_WIND) 0 100 }
  | PKind.hydro => { pl with energy := clampQ (pl.energy + ENERGY_FROM_HYDRO) 0 100,
                             vely := PLAYER_JUMP_VEL * (107/100) }
  | _ => pl

/-- The platform half of `Game.handle_platform_effect`. -/
def platformEffect (p : Platform) : Platform :=
  match p.kind with
  | PKind.breaking => { p with active := false, fade := 0 }
  | PKind.disappearing => { p with active := false, fade := 85/100 }
  | _ => p

/-- `Game.handle_platform_effect` on the landed platform `p` (updating
the stored platform through its identity). -/
def handle_platform_effect (g : Game) (p : Platform) : Game :=
  { g with player := playerPlatEffect g.player p.kind,
           platforms := g.platforms.map fun q => if q.id = p.id then platformEffect q else q }

/-- The landing body: snap the player's bottom to the platform top,
bounce with the current speed factor, mark the platform safe, then apply
the kind-specific effect. -/
def applyLanding (g : Game) (sf : ℚ) (p : Platform) : Game :=
  let pl := g.player
  let pl := { pl with rect := { pl.rect with y := p.rect.top - pl.rect.h } }
  let pl := pl.bounce none sf
  let pl := { pl with last_safe := some p.id }
  handle_platform_effect { g with player := pl } p

/-- The landing scan of `Game.resolve_platform_collisions` (at most one
landing per tick). -/
def landingPhase (g : Game) (sf : ℚ) : Game :=
  match findLanding g.player.prev_rect.bottom g.player.rect g.platforms with
  | some p => applyLanding g sf p
  | none => g

/-- One step of the disappearing-platform fade-out. -/
def fadeStep (p : Platform) : Platform :=
  if p.kind = PKind.disappearing ∧ p.active = false then
    { p with fade := max 0 (p.fade - 6/100) }
  else p

/-- The kill condition checked right after the fade step. -/
def fadeGone (p : Platform) : Bool :=
  decide (p.kind = PKind.disappearing) && !p.active && decide (p.fade ≤ 0)

/-- The fade-out pass over the platform group. -/
def fadeKill (ps : List Platform) : List Platform :=
  (ps.map fadeStep).filter fun p => !(fadeGone p)

/-- `Game.resolve_platform_collisions`: an early return when the player
is not falling (which also skips the fade-out pass), otherwise the
landing scan followed by the fade-out pass. -/
def resolve_platform_collisions (g : Game) (sf : ℚ) : Game :=
  if g.player.vely ≤ 0 then g
  else
    let g1 := landingPhase g sf
    { g1 with platforms := fadeKill g1.platforms }

/-- `Game.apply_bonus`. -/
def apply_bonus (pl : Player) (k : BKind) : Player :=
  match k with
  | BKind.cell => { pl with energy := clampQ (pl.energy + ENERGY_FROM_CELL) 0 100 }
  | BKind.led => { pl with drain_slow := DUR_LED }
  | BKind.shield => { pl with shield := DUR_SHIELD }
  | BKind.jet => { pl with jet := DUR_JET }
  | BKind.spring => { pl with vely := PLAYER_JUMP_VEL * (155/100) }

/-- `Game.resolve_enemy_collisions` body: update each enemy, then on
overlap apply the hit, nudge the enemy sideways, and trigger the quiz
sequence if energy is depleted.  The returned flag records whether some
overlap found the player with depleted energy (the trigger condition). -/
def enemyLoop (sf : ℚ) (env : Env) : Nat → Game → List Enemy → Game × List Enemy × Bool
  | _, g, [] => (g, [], false)
  | i, g, e :: es =>
      let e1 := Enemy.updateE env.sinO g.player.rect.centerx sf e
      if colliderect g.player.rect e1.rect then
        let pl := g.player.take_enemy_hit
        let e2 := { e1 with rect := { e1.rect with x := e1.rect.x + (if env.nudges i then 10 else -10) } }
        let trig : Bool := decide (pl.energy ≤ 0)
        let g1 := { g with player := pl }
        let g2 := if pl.energy ≤ 0 then trigger_quiz g1 env.qpick else g1
        let r := enemyLoop sf env (i + 1) g2 es
        (r.1, e2 :: r.2.1, trig || r.2.2)
      else
        let r := enemyLoop sf env (i + 1) g es
        (r.1, e1 :: r.2.1, r.2.2)

/-- `Game.resolve_enemy_collisions` with its trigger flag. -/
def enemyPass (g : Game) (env : Env) : Game × Bool :=
  let r := enemyLoop (speed_factor g.worldScore) env 0 g g.enemies
  ({ r.1 with enemies := r.2.1 }, r.2.2)

/-- `Game.resolve_bonus_pickups` body: update each bonus, apply and
destroy it on overlap. -/
def bonusLoop (sinO : ℚ → ℚ) : Player → List Bonus → Player × List Bonus
  | pl, [] => (pl, [])
  | pl, b :: bs =>
      let b1 := Bonus.updateB sinO b
      if colliderect pl.rect b1.rect then
        bonusLoop sinO (apply_bonus pl b1.kind) bs
      else
        let r := bonusLoop sinO pl bs
        (r.1, b1 :: r.2)

/-- `Game.resolve_bonus_pickups`. -/
def bonusPass (g : Game) (env : Env) : Game :=
  let r := bonusLoop env.sinO g.player g.bonuses
  { g with player := r.1, bonuses := r.2 }

/-- The unconditional scroll-out cleanup. -/
def cleanup (g : Game) : Game :=
  { g with platforms := g.platforms.filter fun s => !(decide (s.rect.top > HEIGHT + 120)),
           enemies := g.enemies.filter fun s => !(decide (s.rect.top > HEIGHT + 120)),
           bonuses := g.bonuses.filter fun s => !(decide (s.rect.top > HEIGHT + 120)) }

/-- One iteration of the `spawn_next` while-loop, consuming one draw
bundle; returns the new sprites in creation order plus the final spawn
frontier and id counter. -/
def spawnLoop (pQ sf : ℚ) (pcx : Int) :
    List SpawnDraw → Int → Nat → List Platform × List Enemy × List Bonus × Int × Nat
  | [], sy, nid => ([], [], [], sy, nid)
  | d :: ds, sy, nid =>
    if sy ≤ -HEIGHT then ([], [], [], sy, nid)
    else
      let gap := randint (pyInt (SPAWN_MIN_GAP / sf)) (pyInt (SPAWN_MAX_GAP / sf)) d.gapR
      let sy1 := sy - gap
      let kind := choose_platform_type pQ d.kindR
      let x0 := randint SPAWN_X_MARGIN (WIDTH - PLATFORM_W - SPAWN_X_MARGIN) d.xR
      let px := pcx - PLATFORM_W / 2
      let x := clampI (pyInt (lerpQ x0 px (35/100))) SPAWN_X_MARGIN (WIDTH - PLATFORM_W - SPAWN_X_MARGIN)
      let p := mkPlatform nid x sy1 kind d.platPhase
      let sprs : List Bonus :=
        if (kind = PKind.normal ∨ kind = PKind.moving) ∧ d.springR < 1/10 then
          [mkBonus p.rect.centerx (p.rect.top - 16) BKind.spring d.springPhase]
        else []
      let ens : List Enemy :=
        match choose_enemy pQ d.enemyPresR d.enemyKindR with
        | some ek =>
            [mkEnemy (p.rect.centerx + randint (-70) 70 d.enemyXR) (p.rect.top - 28) ek d.enemyPhase]
        | none => []
      let bns : List Bonus :=
        match choose_bonus pQ d.bonusPresR d.bonusKindR with
        | some bk =>
            [mkBonus (p.rect.centerx + randint (-28) 28 d.bonusXR)
               (p.rect.top - randint 20 40 d.bonusYR) bk d.bonusPhase]
        | none => []
      let rest := spawnLoop pQ sf pcx ds sy1 (nid + 1)
      (p :: rest.1, ens ++ rest.2.1, (sprs ++ bns) ++ rest.2.2.1, rest.2.2.2.1, rest.2.2.2.2)

/-- The platform-count safety valve at the end of `spawn_next` (a stable
descending sort by top keeps the first `MAX_PLATFORMS_ON_SCREEN` and
kills the rest). -/
def capPlatforms (ps : List Platform) : List Platform :=
  if ps.length > MAX_PLATFORMS_ON_SCREEN then
    let low := ps.mergeSort fun a b => decide (b.rect.top ≤ a.rect.top)
    let killIds := (low.drop MAX_PLATFORMS_ON_SCREEN).map Platform.id
    ps.filter fun p => !(killIds.contains p.id)
  else ps

/-- `Game.spawn_next`. -/
def spawn_next (g : Game) (env : Env) : Game :=
  let sf := speed_factor g.worldScore
  let pQ := progress_factor g.worldScore
  let r := spawnLoop pQ sf g.player.rect.centerx env.draws g.spawn_y g.nextId
  { g with platforms := capPlatforms (g.platforms ++ r.1),
           enemies := g.enemies ++ r.2.1,
           bonuses := g.bonuses ++ r.2.2.1,
           spawn_y := r.2.2.2.1,
           nextId := r.2.2.2.2 }

/-- The camera scroll step of `Game.update`. -/
def applyScroll (g : Game) : Game :=
  if g.player.rect.top ≤ SCROLL_TRIGGER_Y then
    let dy := SCROLL_TRIGGER_Y - g.player.rect.top
    { g with
      player := { g.player with rect := { g.player.rect with y := SCROLL_TRIGGER_Y } },
      platforms := g.platforms.map fun s => { s with rect := { s.rect with y := s.rect.y + dy } },
      enemies := g.enemies.map fun s => { s with rect := { s.rect with y := s.rect.y + dy } },
      bonuses := g.bonuses.map fun s => { s with rect := { s.rect with y := s.rect.y + dy } },
      spawn_y := g.spawn_y + dy,
      ascended_px := g.ascended_px + dy }
  else g

/-- The redundant horizontal-speed override after the player update. -/
def overrideVelx (pl : Player) (env : Env) (sf : ℚ) : Player :=
  let cur := PLAYER_MOVE_SPEED * sf
  match env.touch with
  | some t => if t < WIDTH / 2 then { pl with velx := -cur } else { pl with velx := cur }
  | none =>
      if env.keyLeft then { pl with velx := -cur }
      else if env.keyRight then { pl with velx := cur }
      else pl

/-- The start of the PLAY branch of `Game.update`: world-score sync,
difficulty gravity boost, moving platform updates, player update and the
velocity override.  The platform and player updates are independent and
applied in one record update. -/
def stagePhys (g : Game) (env : Env) : Game :=
  let sf := speed_factor g.score
  { g with
    worldScore := g.score,
    player := overrideVelx
      (Player.update { g.player with vely := g.player.vely + GRAVITY * (sf - 1) }
        env.touch env.keyLeft env.keyRight) env sf,
    platforms := g.platforms.map (Platform.updateP env.sinO sf) }

/-- The PLAY branch of `Game.update` up to and including the platform
collision resolution: `stagePhys`, then camera scroll, spawn and
landing/fade resolution. -/
def stagePre (g : Game) (env : Env) : Game :=
  let g1 := stagePhys g env
  resolve_platform_collisions (spawn_next (applyScroll g1) env) (speed_factor g1.worldScore)

/-- The PLAY branch through enemy contact, bonus pickup and cleanup. -/
def tickMid (g : Game) (env : Env) : Game :=
  cleanup (bonusPass (enemyPass (stagePre g env) env).1 env)

/-- Whether this tick's enemy pass found an overlap with depleted
energy, i.e. fired the quiz/life-loss trigger. -/
def tickTrigger (g : Game) (env : Env) : Bool :=
  (enemyPass (stagePre g env) env).2

/-- Whether this tick's fall-off check fires. -/
def tickFall (g : Game) (env : Env) : Bool :=
  decide ((tickMid g env).player.rect.top > HEIGHT + 60)

/-- The fall-off check: force energy to zero and fire the life-loss
trigger when the player's top edge is past the bottom margin. -/
def fallStep (g : Game) (q : Nat) : Game :=
  if g.player.rect.top > HEIGHT + 60 then
    trigger_quiz { g with player := { g.player with energy := 0 } } q
  else g

/-- The tick-final monotone score update, mirrored into the player and
the persisted high score. -/
def scorePhase (g : Game) : Game :=
  let sc := scoreUpd g.score g.ascended_px
  { g with score := sc,
           player := { g.player with score := sc },
           high_score := max g.high_score sc }

/-- `Game.update`: state dispatch; in PLAY the full pipeline followed by
the fall-off check and the monotone score update. -/
def Game.update (g : Game) (env : Env) : Game :=
  match g.state with
  | GState.menu => g
  | GState.pause => g
  | GState.gameover => g
  | GState.quiz => quizTick g
  | GState.play => scorePhase (fallStep (tickMid g env) env.qpick)

/-- Iterated ticks. -/
def runTicks (g : Game) (envs : List Env) : Game := envs.foldl Game.update g

/-! ### Shape lemmas: which fields each pipeline stage can touch -/

theorem landingPhase_shape (g : Game) (sf : ℚ) :
    ∃ pl plats, landingPhase g sf = { g with player := pl, platforms := plats } := by
  unfold landingPhase applyLanding handle_platform_effect
  cases findLanding g.player.prev_rect.bottom g.player.rect g.platforms with
  | none => exact ⟨g.player, g.platforms, rfl⟩
  | some p => exact ⟨_, _, rfl⟩

theorem resolve_shape (g : Game) (sf : ℚ) :
    ∃ pl plats, resolve_platform_collisions g sf = { g with player := pl, platforms := plats } := by
  unfold resolve_platform_collisions
  split
  · exact ⟨g.player, g.platforms, rfl⟩
  · obtain ⟨pl, plats, h⟩ := landingPhase_shape g sf
    rw [h]
    exact ⟨pl, fadeKill plats, rfl⟩

theorem spawn_next_shape (g : Game) (env : Env) :
    ∃ plats ens bns sy nid,
      spawn_next g env = { g with platforms := plats, enemies := ens, bonuses := bns,
                                  spawn_y := sy, nextId := nid } :=
  ⟨_, _, _, _, _, rfl⟩

theorem applyScroll_shape (g : Game) :
    ∃ pl plats ens bns sy asc,
      applyScroll g = { g with player := pl, platforms := plats, enemies := ens,
                               bonuses := bns, spawn_y := sy, ascended_px := asc } := by
  unfold applyScroll
  split
  · exact ⟨_, _, _, _, _, _, rfl⟩
  · exact ⟨g.player, g.platforms, g.enemies, g.bonuses, g.spawn_y, g.ascended_px, rfl⟩

theorem cleanup_shape (g : Game) :
    ∃ plats ens bns,
      cleanup g = { g with platforms := plats, enemies := ens, bonuses := bns } :=
  ⟨_, _, _, rfl⟩

theorem bonusPass_shape (g : Game) (env : Env) :
    ∃ pl bns, bonusPass g env = { g with player := pl, bonuses := bns } :=
  ⟨_, _, rfl⟩

theorem game_over_shape (g : Game) :
    game_over g = { g with state := GState.gameover, score := scoreUpd g.score g.ascended_px,
                           high_score := max g.high_score (scoreUpd g.score g.ascended_px) } :=
  rfl

theorem trigger_quiz_shape (g : Game) (q : Nat) :
    ∃ st pl sc hs qi qf qt,
      trigger_quiz g q = { g with state := st, player := pl, score := sc, high_score := hs,
                                  quizIdx := qi, quizFeedback := qf, quizTimer := qt } := by
  unfold trigger_quiz game_over
  dsimp only
  split
  · exact ⟨_, _, _, _, g.quizIdx, g.quizFeedback, g.quizTimer, rfl⟩
  · exact ⟨_, _, g.score, g.high_score, _, _, _, rfl⟩

theorem enemyLoop_shape (sf : ℚ) (env : Env) (es : List Enemy) :
    ∀ (i : Nat) (g : Game),
      ∃ st pl sc hs qi qf qt,
        (enemyLoop sf env i g es).1 =
          { g with state := st, player := pl, score := sc, high_score := hs,
                   quizIdx := qi, quizFeedback := qf, quizTimer := qt } := by
  induction es with
  | nil =>
      intro i g
      exact ⟨g.state, g.player, g.score, g.high_score, g.quizIdx, g.quizFeedback, g.quizTimer, rfl⟩
  | cons e es ih =>
      intro i g
      unfold enemyLoop
      dsimp only
      split
      · split
        · obtain ⟨st, pl2, sc, hs, qi, qf, qt, h1⟩ :=
            trigger_quiz_shape { g with player := g.player.take_enemy_hit } env.qpick
          obtain ⟨st2, pl3, sc2, hs2, qi2, qf2, qt2, h2⟩ :=
            ih (i + 1) (trigger_quiz { g with player := g.player.take_enemy_hit } env.qpick)
          rw [h2, h1]
          exact ⟨_, _, _, _, _, _, _, rfl⟩
        · obtain ⟨st2, pl3, sc2, hs2, qi2, qf2, qt2, h2⟩ :=
            ih (i + 1) { g with player := g.player.take_enemy_hit }
          rw [h2]
          exact ⟨_, _, _, _, _, _, _, rfl⟩
      · obtain ⟨st2, pl3, sc2, hs2, qi2, qf2, qt2, h2⟩ := ih (i + 1) g
        rw [h2]
        exact ⟨_, _, _, _, _, _, _, rfl⟩

theorem enemyPass_shape (g : Game) (env : Env) :
    ∃ st pl ens sc hs qi qf qt,
      (enemyPass g env).1 =
        { g with state := st, player := pl, enemies := ens, score := sc, high_score := hs,
                 quizIdx := qi, quizFeedback := qf, quizTimer := qt } := by
  unfold enemyPass
  dsimp only
  obtain ⟨st, pl, sc, hs, qi, qf, qt, h⟩ :=
    enemyLoop_shape (speed_factor g.worldScore) env g.enemies 0 g
  rw [h]
  exact ⟨st, pl, _, sc, hs, qi, qf, qt, rfl⟩

/-! Per-field preservation ("keep") lemmas, composable by rewriting. -/

theorem resolve_keep (g : Game) (sf : ℚ) :
    (resolve_platform_collisions g sf).state = g.state ∧
    (resolve_platform_collisions g sf).score = g.score ∧
    (resolve_platform_collisions g sf).worldScore = g.worldScore ∧
    (resolve_platform_collisions g sf).ascended_px = g.ascended_px := by
  obtain ⟨pl, plats, h⟩ := resolve_shape g sf
  rw [h]
  exact ⟨rfl, rfl, rfl, rfl⟩

theorem spawn_next_keep (g : Game) (env : Env) :
    (spawn_next g env).state = g.state ∧
    (spawn_next g env).score = g.score ∧
    (spawn_next g env).worldScore = g.worldScore ∧
    (spawn_next g env).ascended_px = g.ascended_px := by
  obtain ⟨plats, ens, bns, sy, nid, h⟩ := spawn_next_shape g env
  rw [h]
  exact ⟨rfl, rfl, rfl, rfl⟩

theorem applyScroll_keep (g : Game) :
    (applyScroll g).state = g.state ∧
    (applyScroll g).score = g.score ∧
    (applyScroll g).worldScore = g.worldScore := by
  obtain ⟨pl, plats, ens, bns, sy, asc, h⟩ := applyScroll_shape g
  rw [h]
  exact ⟨rfl, rfl, rfl⟩

theorem cleanup_keep (g : Game) :
    (cleanup g).state = g.state ∧
    (cleanup g).score = g.score ∧
    (cleanup g).worldScore = g.worldScore ∧
    (cleanup g).ascended_px = g.ascended_px ∧
    (cleanup g).player = g.player := by
  obtain ⟨plats, ens, bns, h⟩ := cleanup_shape g
  rw [h]
  exact ⟨rfl, rfl, rfl, rfl, rfl⟩

theorem bonusPass_keep (g : Game) (env : Env) :
    (bonusPass g env).state = g.state ∧
    (bonusPass g env).score = g.score ∧
    (bonusPass g env).worldScore = g.worldScore ∧
    (bonusPass g env).ascended_px = g.ascended_px := by
  obtain ⟨pl, bns, h⟩ := bonusPass_shape g env
  rw [h]
  exact ⟨rfl, rfl, rfl, rfl⟩

theorem enemyPass_keep (g : Game) (env : Env) :
    (enemyPass g env).1.worldScore = g.worldScore ∧
    (enemyPass g env).1.ascended_px = g.ascended_px := by
  obtain ⟨st, pl, ens, sc, hs, qi, qf, qt, h⟩ := enemyPass_shape g env
  rw [h]
  exact ⟨rfl, rfl⟩

theorem stagePhys_keep (g : Game) (env : Env) :
    (stagePhys g env).state = g.state ∧
    (stagePhys g env).score = g.score ∧
    (stagePhys g env).worldScore = g.score ∧
    (stagePhys g env).ascended_px = g.ascended_px :=
  ⟨rfl, rfl, rfl, rfl⟩

theorem stagePre_keep (g : Game) (env : Env) :
    (stagePre g env).state = g.state ∧
    (stagePre g env).score = g.score ∧
    (stagePre g env).worldScore = g.score := by
  unfold stagePre
  rw [(resolve_keep _ _).1, (resolve_keep _ _).2.1, (resolve_keep _ _).2.2.1,
      (spawn_next_keep _ _).1, (spawn_next_keep _ _).2.1, (spawn_next_keep _ _).2.2.1,
      (applyScroll_keep _).1, (applyScroll_keep _).2.1, (applyScroll_keep _).2.2]
  exact ⟨rfl, rfl, rfl⟩

/-! ### Claim C1 -/

/-- The progress factor as the spec's sentence words it: ascended
distance divided by the 4000 threshold, clamped to the unit interval.
Kept separate from `progress_factor` (translated from the source, which
divides the synced score) for comparison. -/
def progressFactorSpec (ascended : Int) : ℚ := clampQ ((ascended : ℚ) / 4000) 0 1

/-- A run state with ascended distance 4000 whose score fields hold
exactly the value the game's own score rule derives from that distance. -/
def gRunC1 : Game :=
  { state := GState.play,
    player := mkPlayer 230 580 2,
    platforms := [], enemies := [], bonuses := [],
    score := 240, high_score := 0, ascended_px := 4000, worldScore := 240,
    spawn_y := -720, nextId := 0, quizIdx := none, quizFeedback := none, quizTimer := 0 }

/-- Claim C1, counterexample: in a run state whose score (240) is the
game's own derivation from ascended distance 4000, the code's progress
factor is 240/4000 = 3/50, not the claimed clamp(4000/4000) = 1. -/
theorem claim_C1_cx :
    gRunC1.score = scoreUpd 0 gRunC1.ascended_px ∧
    gRunC1.worldScore = gRunC1.score ∧
    progress_factor gRunC1.worldScore = 3/50 ∧
    progressFactorSpec gRunC1.ascended_px = 1 ∧
    progress_factor gRunC1.worldScore ≠ progressFactorSpec gRunC1.ascended_px := by
  refine ⟨?_, rfl, ?_, ?_, ?_⟩
  · norm_num [gRunC1, scoreUpd, pyInt]
  · norm_num [gRunC1, progress_factor, clampQ]
  · norm_num [gRunC1, progressFactorSpec, clampQ]
  · norm_num [gRunC1, progress_factor, progressFactorSpec, clampQ]

/-- Claim C1 (amended): the progress factor is `clamp(score/4000, 0, 1)`
where `score` is the run's score (the monotone image of
`floor(0.06 * ascended_px)` that the tick syncs into the world), the
speed factor is `1 + 0.5 * progress`, and the endpoints hold at score 0
and score 4000, not at ascended distance 0/4000. -/
theorem claim_C1 :
    (∀ s : Int, progress_factor s = clampQ ((s : ℚ) / 4000) 0 1) ∧
    (∀ s : Int, speed_factor s = 1 + (1/2) * progress_factor s) ∧
    (progress_factor 0 = 0 ∧ speed_factor 0 = 1) ∧
    (∀ s : Int, 4000 ≤ s → progress_factor s = 1 ∧ speed_factor s = 3/2) ∧
    (∀ (g : Game) (env : Env), (stagePre g env).worldScore = g.score) := by
  refine ⟨fun s => rfl, fun s => rfl, ⟨?_, ?_⟩, fun s hs => ?_, fun g env => (stagePre_keep g env).2.2⟩
  · norm_num [progress_factor, clampQ]
  · norm_num [speed_factor, progress_factor, clampQ]
  · have hc : (4000 : ℚ) ≤ (s : ℚ) := by exact_mod_cast hs
    have h1 : (1 : ℚ) ≤ (s : ℚ) / 4000 := by
      rw [le_div_iff₀ (by norm_num : (0:ℚ) < 4000)]
      linarith
    have hp : progress_factor s = 1 := by
      unfold progress_factor clampQ
      rw [min_eq_left h1]
      norm_num
    refine ⟨hp, ?_⟩
    unfold speed_factor
    rw [hp]
    norm_num

/-- Witness for C1: the endpoint facts at concrete scores 0 and 4000. -/
theorem claim_C1_witness :
    progress_factor 4000 = 1 ∧ speed_factor 4000 = 3/2 :=
  claim_C1.2.2.2.1 4000 (by norm_num)

/-! ### Claim C3 -/

/-- Claim C3: a life-loss trigger decrements lives exactly once; a
negative post-decrement value routes straight to GAMEOVER (no quiz
question is picked), otherwise a question is picked and the state
becomes QUIZ. -/
theorem claim_C3 (g : Game) (q : Nat) (_hstate : g.state = GState.play) :
    (trigger_quiz g q).player.lives = g.player.lives - 1 ∧
    (g.player.lives - 1 < 0 →
      (trigger_quiz g q).state = GState.gameover ∧
      (trigger_quiz g q).quizIdx = g.quizIdx) ∧
    (0 ≤ g.player.lives - 1 →
      (trigger_quiz g q).state = GState.quiz ∧
      (trigger_quiz g q).quizIdx = some (q % QUIZ_BANK_SIZE)) := by
  unfold trigger_quiz game_over
  dsimp only
  by_cases hL : g.player.lives - 1 < 0
  · rw [if_pos hL]
    exact ⟨rfl, fun _ => ⟨rfl, rfl⟩, fun hge => absurd hL (by omega)⟩
  · rw [if_neg hL]
    exact ⟨rfl, fun hlt => absurd hlt hL, fun _ => ⟨rfl, rfl⟩⟩

/-- A PLAY-state game with two lives used to witness C3. -/
def gC3 : Game :=
  { state := GState.play,
    player := mkPlayer 230 580 2,
    platforms := [], enemies := [], bonuses := [],
    score := 0, high_score := 0, ascended_px := 0, worldScore := 0,
    spawn_y := -720, nextId := 0, quizIdx := none, quizFeedback := none, quizTimer := 0 }

/-- Witness for C3: from two lives, a trigger leaves one life and the
quiz state with the picked question. -/
theorem claim_C3_witness :
    (trigger_quiz gC3 5).player.lives = gC3.player.lives - 1 ∧
    (trigger_quiz gC3 5).state = GState.quiz ∧
    (trigger_quiz gC3 5).quizIdx = some 5 :=
  ⟨(claim_C3 gC3 5 rfl).1,
   ((claim_C3 gC3 5 rfl).2.2 (by norm_num [gC3, mkPlayer])).1,
   ((claim_C3 gC3 5 rfl).2.2 (by norm_num [gC3, mkPlayer])).2⟩

/-! ### Claim C4 -/

theorem revivePlayer_props (g : Game) :
    (g.revivePlayer).velx = 0 ∧ (g.revivePlayer).vely = 0 ∧
    (g.revivePlayer).invincible = DUR_INVINCIBLE ∧
    (g.revivePlayer).lives = g.player.lives ∧
    55 ≤ (g.revivePlayer).energy ∧
    (g.revivePlayer).rect.x = WIDTH / 2 - g.player.rect.w / 2 ∧
    (∀ p : Platform,
      (g.player.last_safe.bind fun i => g.platforms.find? fun r => r.id == i) = some p →
      (g.revivePlayer).rect.y = p.rect.top - PLAYER_H / 2 - 2 - g.player.rect.h / 2) ∧
    ((g.player.last_safe.bind fun i => g.platforms.find? fun r => r.id == i) = none →
      (g.revivePlayer).rect.y = HEIGHT / 2 - g.player.rect.h / 2) := by
  unfold Game.revivePlayer Player.revive_on_safe
  dsimp only
  refine ⟨rfl, rfl, rfl, rfl, le_max_left _ _, rfl, ?_, ?_⟩
  · intro p hp
    rw [hp]
    rfl
  · intro hp
    rw [hp]
    rfl

theorem resolve_quiz_true (g : Game) :
    resolve_quiz_result g true =
      { ({ g with player := { g.player with lives := g.player.lives + 1 } } : Game) with
        player := Game.revivePlayer
          { g with player := { g.player with lives := g.player.lives + 1 } },
        state := GState.play } := by
  simp [resolve_quiz_result]

theorem resolve_quiz_false (g : Game) :
    resolve_quiz_result g false = game_over g := by
  simp [resolve_quiz_result]

/-- Claim C4: a correct quiz answer refunds the entry decrement (net
zero lives across the trigger/resolve pair), revives the player centred
above the last safe platform (screen centre if none alive) with zero
velocity, at least 55 energy and a full invincibility window, and
returns to PLAY; an incorrect answer goes to GAMEOVER with the
post-decrement lives kept. -/
theorem claim_C4 (g : Game) (q : Nat) (h1 : 1 ≤ g.player.lives)
    (hw : g.player.rect.w = PLAYER_W) (hh : g.player.rect.h = PLAYER_H) :
    (trigger_quiz g q).state = GState.quiz ∧
    (resolve_quiz_result (trigger_quiz g q) true).player.lives = g.player.lives ∧
    (resolve_quiz_result (trigger_quiz g q) true).state = GState.play ∧
    (resolve_quiz_result (trigger_quiz g q) true).player.invincible = DUR_INVINCIBLE ∧
    (resolve_quiz_result (trigger_quiz g q) true).player.velx = 0 ∧
    (resolve_quiz_result (trigger_quiz g q) true).player.vely = 0 ∧
    55 ≤ (resolve_quiz_result (trigger_quiz g q) true).player.energy ∧
    (∀ p : Platform,
      (g.player.last_safe.bind fun i => g.platforms.find? fun r => r.id == i) = some p →
      (resolve_quiz_result (trigger_quiz g q) true).player.rect.y = p.rect.top - 52) ∧
    ((g.player.last_safe.bind fun i => g.platforms.find? fun r => r.id == i) = none →
      (resolve_quiz_result (trigger_quiz g q) true).player.rect.y = 335) ∧
    (resolve_quiz_result (trigger_quiz g q) true).player.rect.x = 205 ∧
    (resolve_quiz_result (trigger_quiz g q) false).state = GState.gameover ∧
    (resolve_quiz_result (trigger_quiz g q) false).player.lives = g.player.lives - 1 := by
  have hL : ¬ (g.player.lives - 1 < 0) := by omega
  have htr : trigger_quiz g q =
      { g with player := { g.player with lives := g.player.lives - 1 },
               state := GState.quiz, quizIdx := some (q % QUIZ_BANK_SIZE),
               quizFeedback := none, quizTimer := 0 } := by
    unfold trigger_quiz
    dsimp only
    rw [if_neg hL]
  rw [htr, resolve_quiz_true, resolve_quiz_false, game_over_shape]
  obtain ⟨hvx, hvy, hinv, hlv, hen, hx, hsome, hnone⟩ :=
    revivePlayer_props
      { g with player := { g.player with lives := g.player.lives - 1 + 1 },
               state := GState.quiz, quizIdx := some (q % QUIZ_BANK_SIZE),
               quizFeedback := none, quizTimer := 0 }
  refine ⟨rfl, ?_, rfl, ?_, ?_, ?_, ?_, ?_, ?_, ?_, rfl, rfl⟩
  · rw [hlv]
    dsimp only
    omega
  · exact hinv
  · exact hvx
  · exact hvy
  · exact hen
  · intro p hp
    rw [hsome p hp]
    dsimp only
    rw [hh]
    unfold PLAYER_H Rect.top
    omega
  · intro hp
    rw [hnone hp]
    dsimp only
    rw [hh]
    unfold PLAYER_H HEIGHT
    omega
  · rw [hx]
    dsimp only
    rw [hw]
    unfold PLAYER_W WIDTH
    omega

/-- A one-life PLAY game standing on platform 0 used to witness C4. -/
def pC4 : Platform := mkPlatform 0 180 500 PKind.normal 0

def gC4 : Game :=
  { state := GState.play,
    player := { mkPlayer 230 430 1 with last_safe := some 0 },
    platforms := [pC4], enemies := [], bonuses := [],
    score := 0, high_score := 0, ascended_px := 0, worldScore := 0,
    spawn_y := -720, nextId := 1, quizIdx := none, quizFeedback := none, quizTimer := 0 }

/-- Witness for C4 at a concrete one-life game with a live safe
platform. -/
theorem claim_C4_witness :
    (resolve_quiz_result (trigger_quiz gC4 3) true).player.lives = gC4.player.lives ∧
    (resolve_quiz_result (trigger_quiz gC4 3) true).state = GState.play ∧
    (resolve_quiz_result (trigger_quiz gC4 3) true).player.rect.y = pC4.rect.top - 52 ∧
    (resolve_quiz_result (trigger_quiz gC4 3) false).state = GState.gameover :=
  ⟨(claim_C4 gC4 3 (by norm_num [gC4, mkPlayer]) rfl rfl).2.1,
   (claim_C4 gC4 3 (by norm_num [gC4, mkPlayer]) rfl rfl).2.2.1,
   (claim_C4 gC4 3 (by norm_num [gC4, mkPlayer]) rfl rfl).2.2.2.2.2.2.2.1 pC4 rfl,
   (claim_C4 gC4 3 (by norm_num [gC4, mkPlayer]) rfl rfl).2.2.2.2.2.2.2.2.2.2.1⟩

/-! ### Landing-scan and fade-pass helpers -/

theorem findLanding_active (prevB : Int) (r : Rect) :
    ∀ (ps : List Platform) (p : Platform),
      findLanding prevB r ps = some p → p.active = true := by
  intro ps
  induction ps with
  | nil => intro p h; simp [findLanding] at h
  | cons a as ih =>
      intro p h
      unfold findLanding at h
      by_cases ht : landTest prevB r a = true
      · rw [if_pos ht] at h
        injection h with h'
        subst h'
        unfold landTest at ht
        simp only [Bool.and_eq_true] at ht
        exact ht.1.1
      · rw [if_neg ht] at h
        exact ih p h

theorem findLanding_mem (prevB : Int) (r : Rect) :
    ∀ (ps : List Platform) (p : Platform),
      findLanding prevB r ps = some p → p ∈ ps := by
  intro ps
  induction ps with
  | nil => intro p h; simp [findLanding] at h
  | cons a as ih =>
      intro p h
      unfold findLanding at h
      by_cases ht : landTest prevB r a = true
      · rw [if_pos ht] at h
        injection h with h'
        subst h'
        exact List.mem_cons_self a as
      · rw [if_neg ht] at h
        exact List.mem_cons_of_mem a (ih p h)

theorem platformEffect_breaking {p : Platform} (h : p.kind = PKind.breaking) :
    platformEffect p = { p with active := false, fade := 0 } := by
  unfold platformEffect
  rw [h]

theorem platformEffect_disappearing {p : Platform} (h : p.kind = PKind.disappearing) :
    platformEffect p = { p with active := false, fade := 85/100 } := by
  unfold platformEffect
  rw [h]

theorem fadeStep_other {q : Platform} (h : ¬ q.kind = PKind.disappearing) :
    fadeStep q = q := by
  unfold fadeStep
  rw [if_neg]
  intro hc
  exact h hc.1

theorem fadeGone_other {q : Platform} (h : ¬ q.kind = PKind.disappearing) :
    fadeGone q = false := by
  unfold fadeGone
  simp [h]

theorem mem_fadeKill {l : List Platform} {q : Platform}
    (hq : q ∈ l) (h1 : fadeStep q = q) (h2 : fadeGone q = false) : q ∈ fadeKill l := by
  unfold fadeKill
  apply List.mem_filter.mpr
  constructor
  · have := List.mem_map_of_mem fadeStep hq
    rwa [h1] at this
  · simp [h2]

/-! ### Claim C6 -/

/-- Claim C6: the collision resolver never applies a landing while the
player is ascending (negative vertical velocity: the whole resolver is a
no-op), and the landing scan only ever returns an active platform. -/
theorem claim_C6 (g : Game) (sf : ℚ) :
    (g.player.vely < 0 → resolve_platform_collisions g sf = g) ∧
    (∀ p : Platform,
      findLanding g.player.prev_rect.bottom g.player.rect g.platforms = some p →
      p.active = true) := by
  constructor
  · intro h
    unfold resolve_platform_collisions
    rw [if_pos (le_of_lt h)]
  · intro p h
    exact findLanding_active _ _ _ p h

/-- An ascending-player game (vertical velocity -1) with an inactive
platform right under the player, used to witness C6. -/
def pC6 : Platform := mkPlatform 0 180 480 PKind.normal 0

def gC6a : Game :=
  { state := GState.play,
    player := { mkPlayer 230 485 2 with
                  vely := -1,
                  prev_rect := { x := 205, y := 400, w := 50, h := 50 } },
    platforms := [{ pC6 with active := false }], enemies := [], bonuses := [],
    score := 0, high_score := 0, ascended_px := 0, worldScore := 0,
    spawn_y := -720, nextId := 1, quizIdx := none, quizFeedback := none, quizTimer := 0 }

/-- A falling-player game landing on the active platform `pC6`. -/
def gC6b : Game :=
  { gC6a with player := { gC6a.player with vely := 5 }, platforms := [pC6] }

/-- Witness for C6: the resolver is a no-op on the ascending state, and
the landing the falling state finds is on an active platform. -/
theorem claim_C6_witness :
    resolve_platform_collisions gC6a 1 = gC6a ∧ pC6.active = true :=
  ⟨(claim_C6 gC6a 1).1 (by norm_num [gC6a, mkPlayer]),
   (claim_C6 gC6b 1).2 pC6 (by
     simp [gC6b, gC6a, pC6, mkPlayer, mkPlatform, findLanding, landTest, colliderect,
           Rect.top, Rect.bottom, PLAYER_W, PLAYER_H, PLATFORM_W, PLATFORM_H])⟩

/-! ### Claim C7 -/

/-- A falling player about to land on a hydro platform. -/
def pC7 : Platform := mkPlatform 0 180 480 PKind.hydro 0

def gC7 : Game :=
  { state := GState.play,
    player := { mkPlayer 230 485 2 with
                  vely := 5,
                  prev_rect := { x := 205, y := 400, w := 50, h := 50 } },
    platforms := [pC7], enemies := [], bonuses := [],
    score := 0, high_score := 0, ascended_px := 0, worldScore := 0,
    spawn_y := -720, nextId := 1, quizIdx := none, quizFeedback := none, quizTimer := 0 }

/-- Claim C7, counterexample: landing on a hydro platform at speed
factor 3/2 leaves the jump impulse at the unscaled `-14 * 1.07 = -14.98`,
not the claimed speed-factor-scaled `-14 * 1.5 * 1.07 = -22.47`. -/
theorem claim_C7_cx :
    (resolve_platform_collisions gC7 (3/2)).player.vely = PLAYER_JUMP_VEL * (107/100) ∧
    PLAYER_JUMP_VEL * (107/100) = -(749/50) ∧
    PLAYER_JUMP_VEL * (3/2) * (107/100) = -(2247/100) ∧
    (resolve_platform_collisions gC7 (3/2)).player.vely ≠
      PLAYER_JUMP_VEL * (3/2) * (107/100) := by
  have h1 : (resolve_platform_collisions gC7 (3/2)).player.vely = PLAYER_JUMP_VEL * (107/100) := by
    norm_num [resolve_platform_collisions, landingPhase, findLanding, landTest, colliderect,
          applyLanding, handle_platform_effect, playerPlatEffect, Player.bounce,
          gC7, pC7, mkPlayer, mkPlatform, Rect.top, Rect.bottom,
          PLAYER_W, PLAYER_H, PLATFORM_W, PLATFORM_H]
  refine ⟨h1, by norm_num [PLAYER_JUMP_VEL], by norm_num [PLAYER_JUMP_VEL], ?_⟩
  rw [h1]
  norm_num [PLAYER_JUMP_VEL]

/-- Claim C7 (amended): a hydro landing grants +9 energy clamped to
[0, 100], and overrides the jump impulse with the base landing impulse
boosted by 7% (`-14 * 1.07`), ignoring the current speed factor. -/
theorem claim_C7 (g : Game) (sf : ℚ) (p : Platform)
    (hv : 0 < g.player.vely)
    (hf : findLanding g.player.prev_rect.bottom g.player.rect g.platforms = some p)
    (hk : p.kind = PKind.hydro) :
    (resolve_platform_collisions g sf).player.energy = clampQ (g.player.energy + 9) 0 100 ∧
    (resolve_platform_collisions g sf).player.vely = PLAYER_JUMP_VEL * (107/100) := by
  have hv' : ¬ (g.player.vely ≤ 0) := not_le.mpr hv
  unfold resolve_platform_collisions
  rw [if_neg hv']
  dsimp only
  unfold landingPhase
  rw [hf]
  dsimp only
  unfold applyLanding handle_platform_effect playerPlatEffect Player.bounce
  dsimp only
  rw [hk]
  exact ⟨rfl, rfl⟩

/-- Witness for C7 at the concrete hydro landing (speed factor 1). -/
theorem claim_C7_witness :
    (resolve_platform_collisions gC7 1).player.energy = clampQ (gC7.player.energy + 9) 0 100 ∧
    (resolve_platform_collisions gC7 1).player.vely = PLAYER_JUMP_VEL * (107/100) :=
  claim_C7 gC7 1 pC7 (by norm_num [gC7, mkPlayer])
    (by simp [gC7, pC7, mkPlayer, mkPlatform, findLanding, landTest, colliderect,
              Rect.top, Rect.bottom, PLAYER_W, PLAYER_H, PLATFORM_W, PLATFORM_H])
    rfl

/-! ### Claim C8 -/

/-- A falling player about to land on a breaking platform. -/
def pC8 : Platform := mkPlatform 0 180 480 PKind.breaking 0

def gC8 : Game :=
  { state := GState.play,
    player := { mkPlayer 230 485 2 with
                  vely := 5,
                  prev_rect := { x := 205, y := 400, w := 50, h := 50 } },
    platforms := [pC8], enemies := [], bonuses := [],
    score := 0, high_score := 0, ascended_px := 0, worldScore := 0,
    spawn_y := -720, nextId := 1, quizIdx := none, quizFeedback := none, quizTimer := 0 }

/-- Claim C8, counterexample: landing on a breaking platform sets its
fade to 0 immediately — there is no fade-out "starting from full fade
(fade = 1)". -/
theorem claim_C8_cx :
    (resolve_platform_collisions gC8 1).platforms =
      [{ pC8 with active := false, fade := 0 }] ∧
    ({ pC8 with active := false, fade := 0 } : Platform).fade = 0 ∧
    ((0 : ℚ) = 1 → False) := by
  refine ⟨?_, rfl, by norm_num⟩
  norm_num [resolve_platform_collisions, landingPhase, findLanding, landTest, colliderect,
        applyLanding, handle_platform_effect, playerPlatEffect, platformEffect, Player.bounce,
        fadeKill, fadeStep, fadeGone,
        gC8, pC8, mkPlayer, mkPlatform, Rect.top, Rect.bottom,
        PLAYER_W, PLAYER_H, PLATFORM_W, PLATFORM_H]
  decide

/-- Claim C8 (amended): a landing on a breaking platform deactivates it
immediately and sets its fade to 0 at once (instantly fully faded); no
gradual fade-out follows, since the fade-decay step only applies to
disappearing platforms. -/
theorem claim_C8 (g : Game) (sf : ℚ) (p : Platform)
    (hv : 0 < g.player.vely)
    (hf : findLanding g.player.prev_rect.bottom g.player.rect g.platforms = some p)
    (hk : p.kind = PKind.breaking) :
    (∃ q ∈ (resolve_platform_collisions g sf).platforms,
       q.id = p.id ∧ q.active = false ∧ q.fade = 0) ∧
    (∀ q : Platform, ¬ q.kind = PKind.disappearing → fadeStep q = q) := by
  have hv' : ¬ (g.player.vely ≤ 0) := not_le.mpr hv
  have hmem := findLanding_mem _ _ _ p hf
  constructor
  · unfold resolve_platform_collisions
    rw [if_neg hv']
    dsimp only
    unfold landingPhase
    rw [hf]
    dsimp only
    unfold applyLanding handle_platform_effect
    dsimp only
    refine ⟨{ p with active := false, fade := 0 }, ?_, rfl, rfl, rfl⟩
    have h1 : ({ p with active := false, fade := 0 } : Platform) ∈
        g.platforms.map (fun q => if q.id = p.id then platformEffect q else q) := by
      have h2 := List.mem_map_of_mem (fun q => if q.id = p.id then platformEffect q else q) hmem
      dsimp only at h2
      rw [if_pos rfl, platformEffect_breaking hk] at h2
      exact h2
    have hknd : ¬ ({ p with active := false, fade := 0 } : Platform).kind = PKind.disappearing := by
      dsimp only
      rw [hk]
      intro hcon
      exact PKind.noConfusion hcon
    exact mem_fadeKill h1 (fadeStep_other hknd) (fadeGone_other hknd)
  · intro q hq
    exact fadeStep_other hq

/-- Witness for C8 at the concrete breaking-platform landing. -/
theorem claim_C8_witness :
    ∃ q ∈ (resolve_platform_collisions gC8 1).platforms,
      q.id = pC8.id ∧ q.active = false ∧ q.fade = 0 :=
  (claim_C8 gC8 1 pC8 (by norm_num [gC8, mkPlayer])
    (by simp [gC8, pC8, mkPlayer, mkPlatform, findLanding, landTest, colliderect,
              Rect.top, Rect.bottom, PLAYER_W, PLAYER_H, PLATFORM_W, PLATFORM_H])
    rfl).1

/-! ### Claim C9 -/

/-- Iterated fade decay from a starting fade value. -/
def decayIter : Nat → ℚ → ℚ
  | 0, f => f
  | n + 1, f => decayIter n (max 0 (f - 6/100))

/-- An already-faded (0.79) inactive disappearing platform under an
ascending player: the resolver's early return skips the decay pass. -/
def pC9 : Platform :=
  { mkPlatform 0 180 480 PKind.disappearing 0 with active := false, fade := 79/100 }

def gC9 : Game :=
  { state := GState.play,
    player := { mkPlayer 230 485 2 with
                  vely := -1,
                  prev_rect := { x := 205, y := 400, w := 50, h := 50 } },
    platforms := [pC9], enemies := [], bonuses := [],
    score := 0, high_score := 0, ascended_px := 0, worldScore := 0,
    spawn_y := -720, nextId := 1, quizIdx := none, quizFeedback := none, quizTimer := 0 }

/-- Claim C9, counterexample: on a tick where the player is ascending
(vertical velocity -1), the collision resolver returns early and the
inactive disappearing platform's fade stays at 0.79 instead of
decreasing by 0.06 — the decay does not happen on every subsequent
tick. -/
theorem claim_C9_cx :
    resolve_platform_collisions gC9 1 = gC9 ∧
    gC9.platforms = [pC9] ∧
    pC9.kind = PKind.disappearing ∧ pC9.active = false ∧ pC9.fade = 79/100 ∧
    (resolve_platform_collisions gC9 1).platforms = [pC9] ∧
    pC9.fade ≠ max 0 (pC9.fade - 6/100) := by
  have h0 : resolve_platform_collisions gC9 1 = gC9 := by
    unfold resolve_platform_collisions
    rw [if_pos (by norm_num [gC9, mkPlayer])]
  refine ⟨h0, by rfl, by rfl, by rfl, by rfl, by rw [h0]; rfl, ?_⟩
  norm_num [pC9, mkPlatform, max_def]

/-- Claim C9 (amended): landing on a disappearing platform deactivates
it and sets fade to 0.85; on each tick in which the resolver's decay
pass runs — only when the player's vertical velocity is positive, the
landing tick itself included — the fade decreases by 0.06 floored at 0,
independently of further collisions; a platform surviving the decay pass
always has positive fade, and from 0.85 the fade is still 0.01 after 14
decay steps and reaches 0 at the 15th, at which point the platform is
destroyed. -/
theorem claim_C9 (g : Game) (sf : ℚ) (p : Platform)
    (_hv : 0 < g.player.vely)
    (hf : findLanding g.player.prev_rect.bottom g.player.rect g.platforms = some p)
    (hk : p.kind = PKind.disappearing) :
    (∃ q ∈ (landingPhase g sf).platforms,
       q.id = p.id ∧ q.active = false ∧ q.fade = 85/100) ∧
    (∀ q : Platform, q.kind = PKind.disappearing → q.active = false →
       fadeStep q = { q with fade := max 0 (q.fade - 6/100) }) ∧
    (∀ (g' : Game) (sf' : ℚ), g'.player.vely ≤ 0 →
       resolve_platform_collisions g' sf' = g') ∧
    (∀ (l : List Platform) (q : Platform), q ∈ fadeKill l →
       q.kind = PKind.disappearing → q.active = false → 0 < q.fade) ∧
    decayIter 14 (85/100) = 1/100 ∧ decayIter 15 (85/100) = 0 := by
  have hmem := findLanding_mem _ _ _ p hf
  refine ⟨?_, ?_, ?_, ?_, ?_, ?_⟩
  · unfold landingPhase
    rw [hf]
    dsimp only
    unfold applyLanding handle_platform_effect
    dsimp only
    refine ⟨{ p with active := false, fade := 85/100 }, ?_, rfl, rfl, rfl⟩
    have h2 := List.mem_map_of_mem (fun q => if q.id = p.id then platformEffect q else q) hmem
    dsimp only at h2
    rw [if_pos rfl, platformEffect_disappearing hk] at h2
    exact h2
  · intro q hq ha
    unfold fadeStep
    rw [if_pos ⟨hq, ha⟩]
  · intro g' sf' h'
    unfold resolve_platform_collisions
    rw [if_pos h']
  · intro l q hql hq ha
    unfold fadeKill at hql
    have h2 := (List.mem_filter.mp hql).2
    rw [Bool.not_eq_true'] at h2
    unfold fadeGone at h2
    rw [hq, ha] at h2
    simp at h2
    exact h2
  · norm_num [decayIter, max_def]
  · norm_num [decayIter, max_def]

/-- A falling player landing on a fresh disappearing platform, to
witness C9. -/
def pC9w : Platform := mkPlatform 0 180 480 PKind.disappearing 0

def gC9w : Game :=
  { gC9 with player := { gC9.player with vely := 5 }, platforms := [pC9w] }

/-- Witness for C9: the concrete landing sets fade 0.85 and the decay
iteration from 0.85 reaches 0 exactly at step 15. -/
theorem claim_C9_witness :
    (∃ q ∈ (landingPhase gC9w 1).platforms,
       q.id = pC9w.id ∧ q.active = false ∧ q.fade = 85/100) ∧
    decayIter 14 (85/100) = 1/100 ∧ decayIter 15 (85/100) = 0 :=
  ⟨(claim_C9 gC9w 1 pC9w (by norm_num [gC9w, gC9, mkPlayer])
      (by simp [gC9w, gC9, pC9w, mkPlayer, mkPlatform, findLanding, landTest, colliderect,
                Rect.top, Rect.bottom, PLAYER_W, PLAYER_H, PLATFORM_W, PLATFORM_H])
      rfl).1,
   (claim_C9 gC9w 1 pC9w (by norm_num [gC9w, gC9, mkPlayer])
      (by simp [gC9w, gC9, pC9w, mkPlayer, mkPlatform, findLanding, landTest, colliderect,
                Rect.top, Rect.bottom, PLAYER_W, PLAYER_H, PLATFORM_W, PLATFORM_H])
      rfl).2.2.2.2.1,
   (claim_C9 gC9w 1 pC9w (by norm_num [gC9w, gC9, mkPlayer])
      (by simp [gC9w, gC9, pC9w, mkPlayer, mkPlatform, findLanding, landTest, colliderect,
                Rect.top, Rect.bottom, PLAYER_W, PLAYER_H, PLATFORM_W, PLATFORM_H])
      rfl).2.2.2.2.2⟩

/-! ### Claim C2 -/

/-- Every operation of the game that writes `Player.energy`: the
per-tick update, an enemy hit, a platform landing (snap, bounce, safe
mark, kind effect), a bonus pickup, the quiz revival and the fall-off
energy zeroing. -/
inductive PlayerOp where
  | tick (touchX : Option Int) (kLeft kRight : Bool)
  | hit
  | land (kind : PKind) (sf : ℚ) (ptop : Int) (pid : Nat)
  | pickup (kind : BKind)
  | revive (safeTop : Option Int)
  | fall

/-- Apply one energy-touching operation to the player, exactly as the
corresponding source code path does. -/
def applyOp (pl : Player) : PlayerOp → Player
  | PlayerOp.tick t l r => pl.update t l r
  | PlayerOp.hit => pl.take_enemy_hit
  | PlayerOp.land k sf ptop pid =>
      playerPlatEffect
        { Player.bounce { pl with rect := { pl.rect with y := ptop - pl.rect.h } } none sf with
            last_safe := some pid } k
  | PlayerOp.pickup k => apply_bonus pl k
  | PlayerOp.revive st => pl.revive_on_safe st
  | PlayerOp.fall => { pl with energy := 0 }

/-- A sequence of energy-touching operations. -/
def runOps (pl : Player) (ops : List PlayerOp) : Player := ops.foldl applyOp pl

theorem clampQ_bounds (x : ℚ) : 0 ≤ clampQ x 0 100 ∧ clampQ x 0 100 ≤ 100 := by
  unfold clampQ
  constructor
  · exact le_max_left _ _
  · exact max_le (by norm_num) (min_le_left _ _)

theorem update_energy (pl : Player) (t : Option Int) (l r : Bool) :
    (pl.update t l r).energy =
      clampQ (pl.energy - PASSIVE_ENERGY_DRAIN * (if pl.drain_slow > 0 then 3/5 else 1))
        0 100 := rfl

theorem hit_energy (pl : Player) :
    pl.take_enemy_hit.energy =
      if pl.invincible > 0 then pl.energy
      else if pl.shield > 0 then pl.energy
      else clampQ (pl.energy - ENEMY_HIT_ENERGY_LOSS) 0 100 := by
  unfold Player.take_enemy_hit
  by_cases hi : pl.invincible > 0
  · rw [if_pos hi, if_pos hi]
  · rw [if_neg hi, if_neg hi]
    by_cases hs : pl.shield > 0
    · rw [if_pos hs, if_pos hs]
    · rw [if_neg hs, if_neg hs]

theorem landOp_energy (pl : Player) (k : PKind) (sf : ℚ) (ptop : Int) (pid : Nat) :
    (applyOp pl (PlayerOp.land k sf ptop pid)).energy =
      match k with
      | PKind.solar => clampQ (pl.energy + ENERGY_FROM_SOLAR) 0 100
      | PKind.wind => clampQ (pl.energy + ENERGY_FROM_WIND) 0 100
      | PKind.hydro => clampQ (pl.energy + ENERGY_FROM_HYDRO) 0 100
      | _ => pl.energy := by
  cases k <;> rfl

theorem pickupOp_energy (pl : Player) (k : BKind) :
    (applyOp pl (PlayerOp.pickup k)).energy =
      match k with
      | BKind.cell => clampQ (pl.energy + ENERGY_FROM_CELL) 0 100
      | _ => pl.energy := by
  cases k <;> rfl

theorem reviveOp_energy (pl : Player) (st : Option Int) :
    (pl.revive_on_safe st).energy = max 55 pl.energy := rfl

theorem applyOp_energy (pl : Player) (op : PlayerOp)
    (h : 0 ≤ pl.energy ∧ pl.energy ≤ 100) :
    0 ≤ (applyOp pl op).energy ∧ (applyOp pl op).energy ≤ 100 := by
  cases op with
  | tick t l r =>
      have he : (applyOp pl (PlayerOp.tick t l r)).energy = (pl.update t l r).energy := rfl
      rw [he, update_energy]
      exact clampQ_bounds _
  | hit =>
      have he : (applyOp pl PlayerOp.hit).energy = pl.take_enemy_hit.energy := rfl
      rw [he, hit_energy]
      split
      · exact h
      · split
        · exact h
        · exact clampQ_bounds _
  | land k sf ptop pid =>
      rw [landOp_energy]
      cases k
      all_goals dsimp only
      case solar => exact clampQ_bounds _
      case wind => exact clampQ_bounds _
      case hydro => exact clampQ_bounds _
      all_goals exact h
  | pickup k =>
      rw [pickupOp_energy]
      cases k
      all_goals dsimp only
      case cell => exact clampQ_bounds _
      all_goals exact h
  | revive st =>
      have he : (applyOp pl (PlayerOp.revive st)).energy = (pl.revive_on_safe st).energy := rfl
      rw [he, reviveOp_energy]
      constructor
      · exact le_trans (by norm_num) (le_max_left 55 pl.energy)
      · exact max_le (by norm_num) h.2
  | fall =>
      have he : (applyOp pl PlayerOp.fall).energy = 0 := rfl
      rw [he]
      exact ⟨le_refl 0, by norm_num⟩

/-- Claim C2: for any player with energy in [0, 100] (as at run start,
where it is 100) and any sequence of per-tick updates, enemy hits,
platform landings, bonus pickups, revivals and fall-offs, the energy is
inside [0, 100] after every operation completes. -/
theorem claim_C2 (pl : Player) (h : 0 ≤ pl.energy ∧ pl.energy ≤ 100)
    (ops : List PlayerOp) :
    0 ≤ (runOps pl ops).energy ∧ (runOps pl ops).energy ≤ 100 := by
  induction ops generalizing pl with
  | nil => exact h
  | cons op ops ih => exact ih (applyOp pl op) (applyOp_energy pl op h)

/-- Witness for C2: the freshly created player (energy 100) run through
one operation of each kind. -/
theorem claim_C2_witness :
    0 ≤ (runOps (mkPlayer 230 580 2)
          [PlayerOp.tick none false false, PlayerOp.hit,
           PlayerOp.land PKind.solar 1 400 0, PlayerOp.pickup BKind.cell,
           PlayerOp.revive (some 400), PlayerOp.fall]).energy ∧
    (runOps (mkPlayer 230 580 2)
          [PlayerOp.tick none false false, PlayerOp.hit,
           PlayerOp.land PKind.solar 1 400 0, PlayerOp.pickup BKind.cell,
           PlayerOp.revive (some 400), PlayerOp.fall]).energy ≤ 100 :=
  claim_C2 (mkPlayer 230 580 2) (by norm_num [mkPlayer]) _

/-! ### Tick dispatch and score bookkeeping lemmas (for C5 and C10) -/

theorem update_of_menu (g : Game) (env : Env) (h : g.state = GState.menu) :
    Game.update g env = g := by
  rcases g with ⟨st, pl, plats, ens, bns, sc, hs, asc, ws, sy, nid, qi, qf, qt⟩
  dsimp only at h
  subst h
  rfl

theorem update_of_pause (g : Game) (env : Env) (h : g.state = GState.pause) :
    Game.update g env = g := by
  rcases g with ⟨st, pl, plats, ens, bns, sc, hs, asc, ws, sy, nid, qi, qf, qt⟩
  dsimp only at h
  subst h
  rfl

theorem update_of_gameover (g : Game) (env : Env) (h : g.state = GState.gameover) :
    Game.update g env = g := by
  rcases g with ⟨st, pl, plats, ens, bns, sc, hs, asc, ws, sy, nid, qi, qf, qt⟩
  dsimp only at h
  subst h
  rfl

theorem update_of_quiz (g : Game) (env : Env) (h : g.state = GState.quiz) :
    Game.update g env = quizTick g := by
  rcases g with ⟨st, pl, plats, ens, bns, sc, hs, asc, ws, sy, nid, qi, qf, qt⟩
  dsimp only at h
  subst h
  rfl

theorem update_of_play (g : Game) (env : Env) (h : g.state = GState.play) :
    Game.update g env = scorePhase (fallStep (tickMid g env) env.qpick) := by
  rcases g with ⟨st, pl, plats, ens, bns, sc, hs, asc, ws, sy, nid, qi, qf, qt⟩
  dsimp only at h
  subst h
  rfl

theorem scoreUpd_le (s a : Int) : s ≤ scoreUpd s a := le_max_left _ _

theorem scoreUpd_absorb (s a : Int) : scoreUpd (scoreUpd s a) a = scoreUpd s a := by
  unfold scoreUpd
  rw [max_assoc, max_self]

/-- Chaining two "unchanged or bumped" score steps over the same
ascended distance. -/
theorem chainScore {s0 s1 s2 a : Int}
    (h1 : s1 = s0 ∨ s1 = scoreUpd s0 a) (h2 : s2 = s1 ∨ s2 = scoreUpd s1 a) :
    s2 = s0 ∨ s2 = scoreUpd s0 a := by
  rcases h1 with h1 | h1 <;> rcases h2 with h2 | h2 <;> subst h1 <;> subst h2
  · exact Or.inl rfl
  · exact Or.inr rfl
  · exact Or.inr rfl
  · exact Or.inr (scoreUpd_absorb s0 a)

theorem combineScore {s0 s1 a : Int} (h : s1 = s0 ∨ s1 = scoreUpd s0 a) :
    scoreUpd s1 a = scoreUpd s0 a := by
  rcases h with h | h <;> subst h
  · rfl
  · exact scoreUpd_absorb s0 a

theorem trigger_quiz_props (g : Game) (q : Nat) :
    ((trigger_quiz g q).score = g.score ∨
     (trigger_quiz g q).score = scoreUpd g.score g.ascended_px) ∧
    (trigger_quiz g q).ascended_px = g.ascended_px ∧
    ((trigger_quiz g q).state = GState.quiz ∨
     (trigger_quiz g q).state = GState.gameover) := by
  unfold trigger_quiz game_over
  dsimp only
  split
  · exact ⟨Or.inr rfl, rfl, Or.inr rfl⟩
  · exact ⟨Or.inl rfl, rfl, Or.inl rfl⟩

theorem quizTick_props (g : Game) :
    ((quizTick g).score = g.score ∨
     (quizTick g).score = scoreUpd g.score g.ascended_px) ∧
    (quizTick g).ascended_px = g.ascended_px := by
  unfold quizTick
  dsimp only
  cases hqf : g.quizFeedback with
  | none => exact ⟨Or.inl rfl, rfl⟩
  | some c =>
      dsimp only
      split
      · cases c
        · rw [resolve_quiz_false, game_over_shape]
          exact ⟨Or.inr rfl, rfl⟩
        · rw [resolve_quiz_true]
          exact ⟨Or.inl rfl, rfl⟩
      · exact ⟨Or.inl rfl, rfl⟩

theorem enemyLoop_props (sf : ℚ) (env : Env) :
    ∀ (es : List Enemy) (i : Nat) (g : Game),
      ((enemyLoop sf env i g es).1.score = g.score ∨
       (enemyLoop sf env i g es).1.score = scoreUpd g.score g.ascended_px) ∧
      (enemyLoop sf env i g es).1.ascended_px = g.ascended_px ∧
      ((enemyLoop sf env i g es).2.2 = false →
        (enemyLoop sf env i g es).1.state = g.state ∧
        (enemyLoop sf env i g es).1.score = g.score) ∧
      ((enemyLoop sf env i g es).1.state = g.state ∨
       (enemyLoop sf env i g es).1.state = GState.quiz ∨
       (enemyLoop sf env i g es).1.state = GState.gameover) ∧
      ((enemyLoop sf env i g es).2.2 = true →
        (enemyLoop sf env i g es).1.state = GState.quiz ∨
        (enemyLoop sf env i g es).1.state = GState.gameover) := by
  intro es
  induction es with
  | nil =>
      intro i g
      refine ⟨Or.inl rfl, rfl, fun _ => ⟨rfl, rfl⟩, Or.inl rfl, fun hfl => ?_⟩
      exact absurd hfl (by simp [enemyLoop])
  | cons e es ih =>
      intro i g
      unfold enemyLoop
      dsimp only
      split
      · by_cases hE : (Player.take_enemy_hit g.player).energy ≤ 0
        · rw [if_pos hE, decide_eq_true hE]
          obtain ⟨tS, tA, tSt⟩ :=
            trigger_quiz_props { g with player := g.player.take_enemy_hit } env.qpick
          obtain ⟨iS, iA, _, iSt, _⟩ :=
            ih (i + 1) (trigger_quiz { g with player := g.player.take_enemy_hit } env.qpick)
          refine ⟨?_, ?_, ?_, ?_, ?_⟩
          · rw [tA] at iS
            exact chainScore tS iS
          · rw [iA, tA]
          · intro hfl
            rw [Bool.true_or] at hfl
            exact Bool.noConfusion hfl
          · rcases iSt with h | h | h
            · rcases tSt with h' | h'
              · exact Or.inr (Or.inl (h.trans h'))
              · exact Or.inr (Or.inr (h.trans h'))
            · exact Or.inr (Or.inl h)
            · exact Or.inr (Or.inr h)
          · intro _
            rcases iSt with h | h | h
            · rcases tSt with h' | h'
              · exact Or.inl (h.trans h')
              · exact Or.inr (h.trans h')
            · exact Or.inl h
            · exact Or.inr h
        · rw [if_neg hE, decide_eq_false hE]
          obtain ⟨iS, iA, iF, iSt, iT⟩ :=
            ih (i + 1) { g with player := g.player.take_enemy_hit }
          rw [Bool.false_or]
          exact ⟨iS, iA, iF, iSt, iT⟩
      · obtain ⟨iS, iA, iF, iSt, iT⟩ := ih (i + 1) g
        exact ⟨iS, iA, iF, iSt, iT⟩

theorem enemyPass_props (g : Game) (env : Env) :
    ((enemyPass g env).1.score = g.score ∨
     (enemyPass g env).1.score = scoreUpd g.score g.ascended_px) ∧
    (enemyPass g env).1.ascended_px = g.ascended_px ∧
    ((enemyPass g env).2 = false → (enemyPass g env).1.state = g.state) ∧
    ((enemyPass g env).2 = true →
      (enemyPass g env).1.state = GState.quiz ∨
      (enemyPass g env).1.state = GState.gameover) := by
  unfold enemyPass
  dsimp only
  obtain ⟨iS, iA, iF, iSt, iT⟩ :=
    enemyLoop_props (speed_factor g.worldScore) env g.enemies 0 g
  exact ⟨iS, iA, fun h => (iF h).1, iT⟩

theorem fallStep_props (g : Game) (q : Nat) :
    ((fallStep g q).score = g.score ∨
     (fallStep g q).score = scoreUpd g.score g.ascended_px) ∧
    (fallStep g q).ascended_px = g.ascended_px ∧
    ((fallStep g q).state = g.state ∨ (fallStep g q).state = GState.quiz ∨
     (fallStep g q).state = GState.gameover) ∧
    (g.player.rect.top ≤ HEIGHT + 60 → fallStep g q = g) := by
  unfold fallStep
  split
  · next hgt =>
      obtain ⟨tS, tA, tSt⟩ :=
        trigger_quiz_props { g with player := { g.player with energy := 0 } } q
      refine ⟨tS, tA, ?_, ?_⟩
      · rcases tSt with h | h
        · exact Or.inr (Or.inl h)
        · exact Or.inr (Or.inr h)
      · intro hle
        exact absurd hgt (not_lt.mpr hle)
  · exact ⟨Or.inl rfl, rfl, Or.inl rfl, fun _ => rfl⟩

theorem scorePhase_props (g : Game) :
    (scorePhase g).score = scoreUpd g.score g.ascended_px ∧
    (scorePhase g).ascended_px = g.ascended_px ∧
    (scorePhase g).state = g.state :=
  ⟨rfl, rfl, rfl⟩

theorem tickMid_facts (g : Game) (env : Env) :
    ((tickMid g env).score = g.score ∨
     (tickMid g env).score = scoreUpd g.score (stagePre g env).ascended_px) ∧
    (tickMid g env).ascended_px = (stagePre g env).ascended_px := by
  unfold tickMid
  obtain ⟨eS, eA, _, _⟩ := enemyPass_props (stagePre g env) env
  constructor
  · rw [(cleanup_keep _).2.1, (bonusPass_keep _ _).2.1]
    rw [(stagePre_keep g env).2.1] at eS
    exact eS
  · rw [(cleanup_keep _).2.2.2.1, (bonusPass_keep _ _).2.2.2, eA]

/-! ### Claim C5 -/

/-- Claim C5: across any single tick (in every state), the score never
decreases, and when it changes it is raised exactly to
`max(score, floor(ascended_px * 0.06))`. -/
theorem claim_C5 (g : Game) (env : Env) :
    g.score ≤ (Game.update g env).score ∧
    ((Game.update g env).score = g.score ∨
     (Game.update g env).score = scoreUpd g.score (Game.update g env).ascended_px) := by
  cases hst : g.state with
  | menu =>
      rw [update_of_menu g env hst]
      exact ⟨le_refl _, Or.inl rfl⟩
  | pause =>
      rw [update_of_pause g env hst]
      exact ⟨le_refl _, Or.inl rfl⟩
  | gameover =>
      rw [update_of_gameover g env hst]
      exact ⟨le_refl _, Or.inl rfl⟩
  | quiz =>
      rw [update_of_quiz g env hst]
      obtain ⟨qS, qA⟩ := quizTick_props g
      constructor
      · rcases qS with h | h
        · rw [h]
        · rw [h]
          exact scoreUpd_le _ _
      · rw [qA]
        exact qS
  | play =>
      rw [update_of_play g env hst]
      obtain ⟨fS, fA, _, _⟩ := fallStep_props (tickMid g env) env.qpick
      obtain ⟨mS, mA⟩ := tickMid_facts g env
      have hXS : (fallStep (tickMid g env) env.qpick).score = g.score ∨
          (fallStep (tickMid g env) env.qpick).score =
            scoreUpd g.score (stagePre g env).ascended_px := by
        rw [mA] at fS
        exact chainScore mS fS
      have hXA : (fallStep (tickMid g env) env.qpick).ascended_px =
          (stagePre g env).ascended_px := by
        rw [fA, mA]
      constructor
      · have hge : g.score ≤ (fallStep (tickMid g env) env.qpick).score := by
          rcases hXS with h | h
          · rw [h]
          · rw [h]
            exact scoreUpd_le _ _
        rw [(scorePhase_props _).1]
        exact le_trans hge (scoreUpd_le _ _)
      · right
        rw [(scorePhase_props _).1, (scorePhase_props _).2.1, hXA]
        exact combineScore hXS

/-! ### Claim C10 -/

theorem tickMid_state_of_no_trigger (g : Game) (env : Env)
    (h : g.state = GState.play) (ht : tickTrigger g env = false) :
    (tickMid g env).state = GState.play := by
  unfold tickMid
  rw [(cleanup_keep _).1, (bonusPass_keep _ _).1]
  have h2 := (enemyPass_props (stagePre g env) env).2.2.1 ht
  rw [h2, (stagePre_keep g env).1, h]

theorem tickMid_state_of_trigger (g : Game) (env : Env)
    (ht : tickTrigger g env = true) :
    (tickMid g env).state = GState.quiz ∨ (tickMid g env).state = GState.gameover := by
  unfold tickMid
  rw [(cleanup_keep _).1, (bonusPass_keep _ _).1]
  exact (enemyPass_props (stagePre g env) env).2.2.2 ht

theorem fallStep_state_of_fall (g : Game) (q : Nat)
    (h : g.player.rect.top > HEIGHT + 60) :
    (fallStep g q).state = GState.quiz ∨ (fallStep g q).state = GState.gameover := by
  unfold fallStep
  rw [if_pos h]
  exact (trigger_quiz_props _ q).2.2

/-- In PLAY, the tick keeps the state at PLAY exactly when neither the
enemy-contact trigger nor the fall-off trigger fires. -/
theorem update_play_iff (g : Game) (env : Env) (h : g.state = GState.play) :
    (Game.update g env).state = GState.play ↔
      tickTrigger g env = false ∧ tickFall g env = false := by
  rw [update_of_play g env h, (scorePhase_props _).2.2]
  constructor
  · intro hpl
    constructor
    · by_contra hne
      have ht : tickTrigger g env = true := by
        cases hb : tickTrigger g env
        · exact absurd hb hne
        · rfl
      have hmid := tickMid_state_of_trigger g env ht
      obtain ⟨_, _, fSt, _⟩ := fallStep_props (tickMid g env) env.qpick
      rcases fSt with h1 | h1 | h1
      · rcases hmid with h2 | h2
        · rw [h1, h2] at hpl
          exact GState.noConfusion hpl
        · rw [h1, h2] at hpl
          exact GState.noConfusion hpl
      · rw [h1] at hpl
        exact GState.noConfusion hpl
      · rw [h1] at hpl
        exact GState.noConfusion hpl
    · by_contra hne
      have hf : tickFall g env = true := by
        cases hb : tickFall g env
        · exact absurd hb hne
        · rfl
      have hgt : (tickMid g env).player.rect.top > HEIGHT + 60 := of_decide_eq_true hf
      rcases fallStep_state_of_fall (tickMid g env) env.qpick hgt with h1 | h1
      · rw [h1] at hpl
        exact GState.noConfusion hpl
      · rw [h1] at hpl
        exact GState.noConfusion hpl
  · rintro ⟨ht, hf⟩
    have hle : (tickMid g env).player.rect.top ≤ HEIGHT + 60 :=
      not_lt.mp (of_decide_eq_false hf)
    rw [(fallStep_props (tickMid g env) env.qpick).2.2.2 hle]
    exact tickMid_state_of_no_trigger g env h ht

/-- A run of ticks in which no enemy-contact trigger and no fall-off
trigger ever fires. -/
inductive SafeRun : Game → List Env → Prop where
  | nil (g : Game) : SafeRun g []
  | cons (g : Game) (e : Env) (es : List Env) :
      tickTrigger g e = false → tickFall g e = false →
      SafeRun (Game.update g e) es → SafeRun g (e :: es)

theorem safeRun_play :
    ∀ (g : Game) (envs : List Env), SafeRun g envs → g.state = GState.play →
      (runTicks g envs).state = GState.play := by
  intro g envs hs
  induction hs with
  | nil g' =>
      intro h
      exact h
  | cons g' e es ht hf _ ih =>
      intro h
      exact ih ((update_play_iff g' e h).mpr ⟨ht, hf⟩)

/-- Claim C10: through any number of ticks without an enemy overlap at
depleted energy and without a fall-off, a PLAY-state game stays in PLAY
(passive drain alone never fires the life-loss sequence — the per-tick
update clamps energy at 0 and changes no state); and whenever a tick
does leave PLAY, the enemy-contact trigger or the fall trigger fired. -/
theorem claim_C10 (g : Game) (envs : List Env) (h : g.state = GState.play)
    (hs : SafeRun g envs) :
    (runTicks g envs).state = GState.play ∧
    (∀ (g' : Game) (e : Env), g'.state = GState.play →
      (Game.update g' e).state ≠ GState.play →
      tickTrigger g' e = true ∨ tickFall g' e = true) ∧
    (∀ (pl : Player) (t : Option Int) (l r : Bool),
      0 ≤ (Player.update pl t l r).energy) := by
  refine ⟨safeRun_play g envs hs h, ?_, ?_⟩
  · intro g' e h' hne
    by_cases ht : tickTrigger g' e = true
    · exact Or.inl ht
    · right
      by_cases hf : tickFall g' e = true
      · exact hf
      · exfalso
        have ht' : tickTrigger g' e = false := by
          cases hb : tickTrigger g' e
          · rfl
          · exact absurd hb ht
        have hf' : tickFall g' e = false := by
          cases hb : tickFall g' e
          · rfl
          · exact absurd hb hf
        exact hne ((update_play_iff g' e h').mpr ⟨ht', hf'⟩)
  · intro pl t l r
    rw [update_energy]
    exact (clampQ_bounds _).1

/-- The trivial tick environment (no input, no draws, zero sine). -/
def envNil : Env :=
  { sinO := fun _ => 0, touch := none, keyLeft := false, keyRight := false,
    draws := [], nudges := fun _ => false, qpick := 0 }

/-- A PLAY-state game whose player already has zero energy. -/
def plC10 : Player := { mkPlayer 230 425 2 with energy := 0 }

def gC10 : Game :=
  { state := GState.play, player := plC10, platforms := [], enemies := [], bonuses := [],
    score := 0, high_score := 0, ascended_px := 0, worldScore := 0,
    spawn_y := -720, nextId := 0, quizIdx := none, quizFeedback := none, quizTimer := 0 }

/-- The zero-energy game after the physics stage of one trivial tick. -/
def gMid10 : Game := { gC10 with player := { plC10 with vely := 1/2 } }

theorem stagePhys_gC10 : stagePhys gC10 envNil = gMid10 := by
  norm_num [stagePhys, overrideVelx, Player.update, speed_factor, progress_factor,
            clampQ, pyInt, gC10, gMid10, plC10, mkPlayer, envNil, GRAVITY,
            PASSIVE_ENERGY_DRAIN, PLAYER_MOVE_SPEED, WIDTH, PLAYER_W, PLAYER_H,
            max_def, min_def]

theorem stagePre_gC10 : stagePre gC10 envNil = gMid10 := by
  unfold stagePre
  rw [stagePhys_gC10]
  dsimp only
  have h2 : applyScroll gMid10 = gMid10 := by
    unfold applyScroll
    rw [if_neg]
    norm_num [gMid10, gC10, plC10, mkPlayer, Rect.top, SCROLL_TRIGGER_Y, PLAYER_W, PLAYER_H]
  have h3 : spawn_next gMid10 envNil = gMid10 := by
    norm_num [spawn_next, spawnLoop, capPlatforms, envNil, gMid10, gC10, plC10, mkPlayer,
              MAX_PLATFORMS_ON_SCREEN]
  have h4 : resolve_platform_collisions gMid10 (speed_factor gMid10.worldScore) = gMid10 := by
    unfold resolve_platform_collisions
    rw [if_neg]
    · unfold landingPhase findLanding
      norm_num [gMid10, gC10, plC10, mkPlayer, fadeKill]
    · norm_num [gMid10, gC10, plC10, mkPlayer]
  rw [h2, h3, h4]

theorem tickMid_gC10 : tickMid gC10 envNil = gMid10 := by
  unfold tickMid
  rw [stagePre_gC10]
  have hE : (enemyPass gMid10 envNil).1 = gMid10 := rfl
  rw [hE]
  have hB : bonusPass gMid10 envNil = gMid10 := rfl
  rw [hB]
  rfl

theorem tickTrigger_gC10 : tickTrigger gC10 envNil = false := by
  unfold tickTrigger
  rw [stagePre_gC10]
  rfl

theorem tickFall_gC10 : tickFall gC10 envNil = false := by
  unfold tickFall
  rw [tickMid_gC10]
  norm_num [gMid10, gC10, plC10, mkPlayer, Rect.top, HEIGHT, PLAYER_W, PLAYER_H]

/-- Witness for C10: one whole tick on a zero-energy player with no
enemy contact and no fall keeps the game in PLAY. -/
theorem claim_C10_witness :
    (runTicks gC10 [envNil]).state = GState.play ∧
    0 ≤ (Player.update plC10 none false false).energy :=
  ⟨(claim_C10 gC10 [envNil] rfl
      (SafeRun.cons _ _ _ tickTrigger_gC10 tickFall_gC10 (SafeRun.nil _))).1,
   (claim_C10 gC10 [envNil] rfl
      (SafeRun.cons _ _ _ tickTrigger_gC10 tickFall_gC10 (SafeRun.nil _))).2.2
     plC10 none false false⟩

end EcoJump
